import Mathlib

/-! Shallow embedding of `src/AirDataAnalyzer.py` (the `DataSet` class)
and verification of its specification.

Modelling conventions:
* Python floats are modelled as rationals `ℚ`; the only arithmetic the
  code performs on concentrations is min/max/sum/division, and rational
  addition is associative and commutative, so the evaluation order of
  Python's `sum` is immaterial.
* A Python `dict` (which preserves insertion order) is modelled as an
  association list `List (String × Bool)`; the operations `dictGet`,
  `dictSet`, `dictContains` mirror `d[k]`, `d[k] = v`, `k in d`.
* Exceptions are modelled with `Except PyError`; a method that mutates
  `self` returns the updated `DataSet` in the success payload, and
  `load_file`, which can raise after mutating `self._data`, returns the
  (possibly mutated) state alongside the `Except` result.
* Output that the code prints and the claims mention (the cross table
  grid, the field table, the "... lines loaded" message) is modelled as
  returned data; the 2-decimal numeric formatting is not modelled, a
  cell holds `none` exactly where the code prints the "N/A" placeholder.
-/

namespace AirData

/-- Embedding of `DataSet.Categories` from the source: which data column
is of interest. -/
inductive Categories
  | ZIP_CODE
  | TIME_OF_DAY
deriving DecidableEq

/-- Embedding of `Categories.value`: the enum value (0 or 1), used by the
code to index into a record tuple and to pick the alternate category. -/
def Categories.value : Categories → Nat
  | .ZIP_CODE => 0
  | .TIME_OF_DAY => 1

/-- Embedding of `DataSet.Stats` from the source: which statistic is
requested. -/
inductive Stats
  | MIN
  | AVG
  | MAX
deriving DecidableEq

/-- A loaded record `(row[1], row[4], float(row[5]))`: zip code, time of
day, concentration. -/
abbrev Record := String × String × ℚ

/-- Embedding of `item[category.value]` for a record tuple: index 0 is
the zip code, index 1 the time of day. -/
def recField (r : Record) : Categories → String
  | .ZIP_CODE => r.1
  | .TIME_OF_DAY => r.2.1

/-- Embedding of `statistics[stat.value]` for a result triple
`(min, avg, max)`. -/
def Stats.select : Stats → ℚ × ℚ × ℚ → ℚ
  | .MIN, t => t.1
  | .AVG, t => t.2.1
  | .MAX, t => t.2.2

/-- A Python dict from label string to active flag, as an
insertion-ordered association list. -/
abbrev Registry := List (String × Bool)

/-- Membership test `k in d` for a dict. -/
def dictContains (d : Registry) (k : String) : Bool :=
  d.any (fun p => p.1 == k)

/-- Lookup `d[k]` for a dict (`none` when the key is absent, which is a
`KeyError` in Python). -/
def dictGet (d : Registry) (k : String) : Option Bool :=
  (d.find? (fun p => p.1 == k)).map Prod.snd

/-- Assignment `d[k] = v` for a dict: update the entry in place when the
key is present (keeping its position), append a new entry otherwise. -/
def dictSet (d : Registry) (k : String) (v : Bool) : Registry :=
  if dictContains d k then
    d.map (fun p => if p.1 == k then (p.1, v) else p)
  else
    d ++ [(k, v)]

/-- The keys of a dict, in insertion order (`[key for key in d]`). -/
def dictKeys (d : Registry) : List String :=
  d.map Prod.fst

/-- The keys of a dict whose value is `True`
(`[key for key, value in d.items() if value is True]`). -/
def activeKeys (d : Registry) : List String :=
  (d.filter (fun p => p.2)).map Prod.fst

/-- Errors raised by the source.  Here `parseFailure` stands for the
`IndexError`/`ValueError` a malformed row raises during `load_file`, and
`stopIteration` for `next(csvreader)` on an empty file. -/
inductive PyError
  | emptyDatasetError
  | noMatchingItems
  | keyError
  | typeError
  | valueError
  | parseFailure
  | stopIteration
deriving DecidableEq

/-- The state of a `DataSet` object: `self._labels` (one dict per
category), `self._data` (`none` models Python `None`), `self._header`. -/
structure DataSet where
  labelsZip : Registry
  labelsTime : Registry
  data : Option (List Record)
  header : String
deriving DecidableEq

/-- Lookup `self._labels[category]`. -/
def DataSet.labels (ds : DataSet) : Categories → Registry
  | .ZIP_CODE => ds.labelsZip
  | .TIME_OF_DAY => ds.labelsTime

/-- Assignment `self._labels[category] = r`. -/
def DataSet.setLabels (ds : DataSet) : Categories → Registry → DataSet
  | .ZIP_CODE, r => { ds with labelsZip := r }
  | .TIME_OF_DAY, r => { ds with labelsTime := r }

/-- Python truthiness test `not self._data`: true when `self._data` is
`None` or the empty list. -/
def pyFalsyData : Option (List Record) → Bool
  | none => true
  | some l => l.isEmpty

/-- Argument of the `header` setter: either a string or some non-string
Python value. -/
inductive PyValue
  | str (s : String)
  | nonString
deriving DecidableEq

/-- Embedding of the `header` property setter: `TypeError` for a
non-string, `ValueError` when longer than 30 characters, otherwise store
the string unchanged. -/
def set_header (ds : DataSet) (new_header : PyValue) : Except PyError DataSet :=
  match new_header with
  | .nonString => .error .typeError
  | .str s =>
      if s.length > 30 then .error .valueError
      else .ok { ds with header := s }

/-- Embedding of `DataSet.__init__(header)`: empty label dicts,
`_data = None`, header set through the validating setter. -/
def DataSet.init (header : PyValue) : Except PyError DataSet :=
  set_header { labelsZip := [], labelsTime := [], data := none, header := "" } header

/-- Embedding of `DataSet.get_labels`: all keys of `_labels[category]`,
or `EmptyDatasetError` when no data is loaded. -/
def get_labels (ds : DataSet) (category : Categories) : Except PyError (List String) :=
  if pyFalsyData ds.data then .error .emptyDatasetError
  else .ok (dictKeys (ds.labels category))

/-- Embedding of `DataSet.get_active_labels`: keys of `_labels[category]`
whose value is `True`, or `EmptyDatasetError` when no data is loaded. -/
def get_active_labels (ds : DataSet) (category : Categories) : Except PyError (List String) :=
  if pyFalsyData ds.data then .error .emptyDatasetError
  else .ok (activeKeys (ds.labels category))

/-- Embedding of `DataSet.toggle_active_label`: `EmptyDatasetError` when
unloaded, `KeyError` when the descriptor is not a key, otherwise
`d[descriptor] = not d[descriptor]`. -/
def toggle_active_label (ds : DataSet) (category : Categories) (descriptor : String) :
    Except PyError DataSet :=
  if pyFalsyData ds.data then .error .emptyDatasetError
  else
    match dictGet (ds.labels category) descriptor with
    | none => .error .keyError
    | some b => .ok (ds.setLabels category (dictSet (ds.labels category) descriptor (!b)))

/-- Python `min` of the non-empty list `c :: cs`: a fold of binary `min`. -/
def pyMin (c : ℚ) (cs : List ℚ) : ℚ := cs.foldl min c

/-- Python `max` of the non-empty list `c :: cs`: a fold of binary `max`. -/
def pyMax (c : ℚ) (cs : List ℚ) : ℚ := cs.foldl max c

/-- Embedding of `DataSet._cross_table_statistics`: filter the records
whose zip is `descriptor_one` and time is `descriptor_two` (activation
flags are never consulted), raise `NoMatchingItems` when nothing
matches, otherwise return `(min, sum/len, max)` of the matched
concentrations. -/
def cross_table_statistics (ds : DataSet) (descriptor_one descriptor_two : String) :
    Except PyError (ℚ × ℚ × ℚ) :=
  if pyFalsyData ds.data then .error .emptyDatasetError
  else
    match ((ds.data.getD []).filter (fun item =>
        item.1 == descriptor_one && item.2.1 == descriptor_two)).map (fun item => item.2.2) with
    | [] => .error .noMatchingItems
    | c :: cs =>
        .ok (pyMin c cs, (c :: cs).sum / ((c :: cs).length : ℚ), pyMax c cs)

/-- The alternate-category computation of `DataSet._table_statistics` and
`DataSet.display_field_table`: `TIME_OF_DAY` when `value == 0`, else
`ZIP_CODE`. -/
def alternateOf (c : Categories) : Categories :=
  if c.value == 0 then .TIME_OF_DAY else .ZIP_CODE

/-- Embedding of `DataSet._table_statistics`: determine the alternate
category from `row_category.value`, read the alternate category's active
labels (this raises `EmptyDatasetError` first when unloaded, exactly as
the code's call order does), then filter the records whose
`row_category` field equals `label` and whose alternate field is among
the active labels. -/
def table_statistics (ds : DataSet) (row_category : Categories) (label : String) :
    Except PyError (ℚ × ℚ × ℚ) :=
  match get_active_labels ds (alternateOf row_category) with
  | .error e => .error e
  | .ok active_labels =>
      if pyFalsyData ds.data then .error .emptyDatasetError
      else
        match ((ds.data.getD []).filter (fun item =>
            recField item row_category == label &&
            active_labels.contains (recField item (alternateOf row_category)))).map
            (fun item => item.2.2) with
        | [] => .error .noMatchingItems
        | c :: cs =>
            .ok (pyMin c cs, (c :: cs).sum / ((c :: cs).length : ℚ), pyMax c cs)

/-- One cell of the cross table: the `try/except NoMatchingItems` around
`self._cross_table_statistics(j, k)`; `none` is the "N/A" placeholder,
any other error propagates. -/
def cross_cell (stat : Stats) : Except PyError (ℚ × ℚ × ℚ) → Except PyError (Option ℚ)
  | .ok t => .ok (some (stat.select t))
  | .error .noMatchingItems => .ok none
  | .error e => .error e

/-- Embedding of `DataSet.display_cross_table`: the rendered grid, as
(column header = active time labels, one row per active zip label with
one cell per active time label).  A `none` cell is where the code prints
"N/A". -/
def display_cross_table (ds : DataSet) (stat : Stats) :
    Except PyError (List String × List (String × List (Option ℚ))) :=
  if pyFalsyData ds.data then .error .emptyDatasetError
  else do
    let times ← get_active_labels ds .TIME_OF_DAY
    let zips ← get_active_labels ds .ZIP_CODE
    let grid ← zips.mapM (fun j => do
      let cells ← times.mapM (fun k => cross_cell stat (cross_table_statistics ds j k))
      pure (j, cells))
    pure (times, grid)

/-- Embedding of `DataSet.display_field_table`: the printed criteria
list (active labels of the other category) and one row per active label
of `rows` holding the `(min, avg, max)` triple, or `none` where the code
prints the "N/A"/"N/A"/"N/A" row. -/
def display_field_table (ds : DataSet) (rows : Categories) :
    Except PyError (List String × List (String × Option (ℚ × ℚ × ℚ))) :=
  if pyFalsyData ds.data then .error .emptyDatasetError
  else do
    let criteria ← get_active_labels ds (alternateOf rows)
    let items ← get_active_labels ds rows
    let body ← items.mapM (fun item =>
      match table_statistics ds rows item with
      | .ok t => .ok (item, some t)
      | .error .noMatchingItems => .ok (item, (none : Option (ℚ × ℚ × ℚ)))
      | .error e => .error e)
    pure (criteria, body)

/-- Model of Python `float()` on plain decimal literals: optional sign,
digits, optional decimal point and fraction digits, at least one digit
overall (the exponent/infinity/nan forms of `float()` are not modelled;
no claim depends on them). -/
def pyFloatOfString (s : String) : Option ℚ :=
  let cs := s.toList
  let signAndRest : ℚ × List Char :=
    match cs with
    | '-' :: rest => (-1, rest)
    | '+' :: rest => (1, rest)
    | _ => (1, cs)
  let sign := signAndRest.1
  let body := signAndRest.2
  let ip := body.takeWhile Char.isDigit
  let rest := body.dropWhile Char.isDigit
  let natOf : List Char → Nat := fun ds => ds.foldl (fun n c => n * 10 + (c.toNat - 48)) 0
  match rest with
  | [] => if ip.isEmpty then none else some (sign * (natOf ip : ℚ))
  | '.' :: fp =>
      if fp.all Char.isDigit && !(ip.isEmpty && fp.isEmpty) then
        some (sign * ((natOf ip : ℚ) + (natOf fp : ℚ) / ((10 : ℚ) ^ fp.length)))
      else none
  | _ => none

/-- Parse one csv data row into `(row[1], row[4], float(row[5]))`;
`none` models the `IndexError` (fewer than 6 fields) or `ValueError`
(non-numeric concentration) the comprehension raises. -/
def parseRow (row : List String) : Option Record :=
  match row.get? 1, row.get? 4, row.get? 5 with
  | some z, some t, some c => (pyFloatOfString c).map (fun q => (z, t, q))
  | _, _, _ => none

/-- The list comprehension of `load_file`: all rows parse, or the first
failure aborts it (and then `self._data` is never assigned). -/
def parseAll : List (List String) → Option (List Record)
  | [] => some []
  | r :: rs =>
      match parseRow r, parseAll rs with
      | some rec, some recs => some (rec :: recs)
      | _, _ => none

/-- Embedding of `DataSet._initialize_labels` for one category: the dict
comprehension `{i[category.value]: True for i in self._data}`
(first-occurrence key order, every value `True`). -/
def initialize_labels_for (data : List Record) (category : Categories) : Registry :=
  data.foldl (fun d i => dictSet d (recField i category) true) []

/-- Embedding of `DataSet.load_file` over a source given as its list of
csv rows (header row included).  `next(csvreader)` on an empty source
raises `StopIteration`; a malformed row aborts the comprehension before
`self._data` is assigned; `_initialize_labels` raises
`EmptyDatasetError` on zero data rows, after `self._data` was already
replaced by `[]`; on success both registries are rebuilt and the code
prints (it does not return) the `"{count} lines loaded"` message,
returned here as the success payload. -/
def load_file (ds : DataSet) (rows : List (List String)) :
    DataSet × Except PyError String :=
  match rows with
  | [] => (ds, .error .stopIteration)
  | _header :: dataRows =>
      match parseAll dataRows with
      | none => (ds, .error .parseFailure)
      | some newData =>
          let ds1 : DataSet := { ds with data := some newData }
          if newData.isEmpty then (ds1, .error .emptyDatasetError)
          else
            (⟨initialize_labels_for newData .ZIP_CODE,
              initialize_labels_for newData .TIME_OF_DAY,
              some newData, ds.header⟩,
             .ok (toString newData.length ++ " lines loaded"))

instance instDecidableEqExceptPy {ε α : Type} [DecidableEq ε] [DecidableEq α] :
    DecidableEq (Except ε α)
  | .ok a, .ok b =>
      if h : a = b then .isTrue (by rw [h]) else .isFalse (by intro hc; cases hc; exact h rfl)
  | .error a, .error b =>
      if h : a = b then .isTrue (by rw [h]) else .isFalse (by intro hc; cases hc; exact h rfl)
  | .ok _, .error _ => .isFalse (by intro hc; cases hc)
  | .error _, .ok _ => .isFalse (by intro hc; cases hc)

/-- A freshly constructed dataset, `DataSet("")`. -/
def ds0 : DataSet := { labelsZip := [], labelsTime := [], data := none, header := "" }

/-- The csv source of the worked example in the specification: rows
`[("10001","Morning",5.0), ("10001","Morning",7.0), ("10002","Evening",3.0)]`,
preceded by a header row. -/
def exampleRows : List (List String) :=
  [ ["sensor", "zip", "a", "b", "time", "conc"],
    ["0", "10001", "x", "y", "Morning", "5.0"],
    ["1", "10001", "x", "y", "Morning", "7.0"],
    ["2", "10002", "x", "y", "Evening", "3.0"] ]

/-- The parsed records of the worked example. -/
def exampleRecords : List Record :=
  [("10001", "Morning", 5), ("10001", "Morning", 7), ("10002", "Evening", 3)]

/-- The dataset state after loading the worked example. -/
def exampleDS : DataSet :=
  { labelsZip := [("10001", true), ("10002", true)],
    labelsTime := [("Morning", true), ("Evening", true)],
    data := some exampleRecords,
    header := "" }

/-- The example dataset after `toggle_active_label(ZIP_CODE, "10002")`. -/
def exampleDSToggled : DataSet :=
  { labelsZip := [("10001", true), ("10002", false)],
    labelsTime := [("Morning", true), ("Evening", true)],
    data := some exampleRecords,
    header := "" }

/-! Helper lemmas about the fold-based `min`/`max` of a non-empty list. -/

lemma pyMin_cons (c a : ℚ) (cs : List ℚ) : pyMin c (a :: cs) = pyMin (min c a) cs := rfl

lemma pyMax_cons (c a : ℚ) (cs : List ℚ) : pyMax c (a :: cs) = pyMax (max c a) cs := rfl

lemma pyMin_mem (c : ℚ) (cs : List ℚ) : pyMin c cs ∈ c :: cs := by
  induction cs generalizing c with
  | nil => simp [pyMin]
  | cons a t ih =>
      rw [pyMin_cons]
      rcases List.mem_cons.mp (ih (min c a)) with h | h
      · rcases min_choice c a with hm | hm
        · exact List.mem_cons.mpr (Or.inl (h.trans hm))
        · exact List.mem_cons.mpr (Or.inr (List.mem_cons.mpr (Or.inl (h.trans hm))))
      · exact List.mem_cons.mpr (Or.inr (List.mem_cons.mpr (Or.inr h)))

lemma pyMax_mem (c : ℚ) (cs : List ℚ) : pyMax c cs ∈ c :: cs := by
  induction cs generalizing c with
  | nil => simp [pyMax]
  | cons a t ih =>
      rw [pyMax_cons]
      rcases List.mem_cons.mp (ih (max c a)) with h | h
      · rcases max_choice c a with hm | hm
        · exact List.mem_cons.mpr (Or.inl (h.trans hm))
        · exact List.mem_cons.mpr (Or.inr (List.mem_cons.mpr (Or.inl (h.trans hm))))
      · exact List.mem_cons.mpr (Or.inr (List.mem_cons.mpr (Or.inr h)))

lemma pyMin_le (c : ℚ) (cs : List ℚ) : ∀ x ∈ c :: cs, pyMin c cs ≤ x := by
  induction cs generalizing c with
  | nil =>
      intro x hx
      rcases List.mem_cons.mp hx with rfl | hx'
      · exact le_refl _
      · cases hx'
  | cons a t ih =>
      intro x hx
      rw [pyMin_cons]
      have hhead : pyMin (min c a) t ≤ min c a :=
        ih (min c a) (min c a) (List.mem_cons_self _ _)
      rcases List.mem_cons.mp hx with rfl | hx'
      · exact le_trans hhead (min_le_left _ _)
      rcases List.mem_cons.mp hx' with rfl | hx''
      · exact le_trans hhead (min_le_right _ _)
      · exact ih (min c a) x (List.mem_cons_of_mem _ hx'')

lemma le_pyMax (c : ℚ) (cs : List ℚ) : ∀ x ∈ c :: cs, x ≤ pyMax c cs := by
  induction cs generalizing c with
  | nil =>
      intro x hx
      rcases List.mem_cons.mp hx with rfl | hx'
      · exact le_refl _
      · cases hx'
  | cons a t ih =>
      intro x hx
      rw [pyMax_cons]
      have hhead : max c a ≤ pyMax (max c a) t :=
        ih (max c a) (max c a) (List.mem_cons_self _ _)
      rcases List.mem_cons.mp hx with rfl | hx'
      · exact le_trans (le_max_left _ _) hhead
      rcases List.mem_cons.mp hx' with rfl | hx''
      · exact le_trans (le_max_right _ _) hhead
      · exact ih (max c a) x (List.mem_cons_of_mem _ hx'')

/-! Helper lemmas about the dict model. -/

lemma mem_dictKeys_iff (d : Registry) (k : String) :
    k ∈ dictKeys d ↔ dictContains d k = true := by
  simp [dictKeys, dictContains, List.any_eq_true, List.mem_map, beq_iff_eq]

lemma dictContains_of_dictGet (d : Registry) (k : String) (b : Bool)
    (h : dictGet d k = some b) : dictContains d k = true := by
  induction d with
  | nil => exact absurd h (by simp [dictGet])
  | cons p t ih =>
      by_cases hpk : (p.1 == k) = true
      · simp [dictContains, List.any_cons, hpk]
      · unfold dictGet at h
        rw [@List.find?_cons_of_neg _ (fun q : String × Bool => q.1 == k) p t hpk] at h
        have ht : dictContains t k = true := ih h
        unfold dictContains at ht ⊢
        rw [List.any_cons, ht, Bool.or_true]

lemma find?_map_keyfix (t : Registry) (k : String) (v : Bool) :
    List.find? (fun q => q.1 == k) (t.map (fun p => if p.1 == k then (p.1, v) else p)) =
      (List.find? (fun q => q.1 == k) t).map (fun p => (p.1, v)) := by
  induction t with
  | nil => rfl
  | cons p t ih =>
      by_cases hpk : (p.1 == k) = true
      · rw [List.map_cons, if_pos hpk,
          @List.find?_cons_of_pos _ (fun q : String × Bool => q.1 == k) (p.1, v) _ hpk,
          @List.find?_cons_of_pos _ (fun q : String × Bool => q.1 == k) p t hpk]
        rfl
      · rw [List.map_cons, if_neg hpk,
          @List.find?_cons_of_neg _ (fun q : String × Bool => q.1 == k) p _ hpk,
          @List.find?_cons_of_neg _ (fun q : String × Bool => q.1 == k) p t hpk, ih]

lemma find?_map_keyfix_other (t : Registry) (k k' : String) (v : Bool) (hk : k' ≠ k) :
    List.find? (fun q => q.1 == k') (t.map (fun p => if p.1 == k then (p.1, v) else p)) =
      List.find? (fun q => q.1 == k') t := by
  induction t with
  | nil => rfl
  | cons p t ih =>
      by_cases hpk' : (p.1 == k') = true
      · have hp1 : p.1 = k' := by simpa using hpk'
        have hne : ¬((p.1 == k) = true) := by
          simp only [beq_iff_eq]
          intro h
          exact hk (hp1.symm.trans h)
        rw [List.map_cons, if_neg hne,
          @List.find?_cons_of_pos _ (fun q : String × Bool => q.1 == k') p _ hpk',
          @List.find?_cons_of_pos _ (fun q : String × Bool => q.1 == k') p t hpk']
      · by_cases hpk : (p.1 == k) = true
        · rw [List.map_cons, if_pos hpk,
            @List.find?_cons_of_neg _ (fun q : String × Bool => q.1 == k') (p.1, v) _ hpk',
            @List.find?_cons_of_neg _ (fun q : String × Bool => q.1 == k') p t hpk', ih]
        · rw [List.map_cons, if_neg hpk,
            @List.find?_cons_of_neg _ (fun q : String × Bool => q.1 == k') p _ hpk',
            @List.find?_cons_of_neg _ (fun q : String × Bool => q.1 == k') p t hpk', ih]

lemma find?_not_contains (d : Registry) (k : String) (hc : ¬(dictContains d k = true)) :
    List.find? (fun q => q.1 == k) d = none := by
  rw [List.find?_eq_none]
  intro p hp hb
  exact hc (by simp only [dictContains, List.any_eq_true]; exact ⟨p, hp, hb⟩)

lemma dictGet_dictSet_self (d : Registry) (k : String) (v : Bool) :
    dictGet (dictSet d k v) k = some v := by
  unfold dictSet
  by_cases hc : dictContains d k = true
  · rw [if_pos hc]
    unfold dictGet
    rw [find?_map_keyfix]
    obtain ⟨p, hp⟩ : ∃ p, List.find? (fun q => q.1 == k) d = some p := by
      cases hfd : List.find? (fun q => q.1 == k) d with
      | some p => exact ⟨p, rfl⟩
      | none =>
          rw [List.find?_eq_none] at hfd
          simp only [dictContains, List.any_eq_true] at hc
          obtain ⟨p, hp, hpk⟩ := hc
          exact absurd hpk (hfd p hp)
    rw [hp]
    rfl
  · rw [if_neg hc]
    unfold dictGet
    rw [List.find?_append, find?_not_contains d k hc,
      @List.find?_cons_of_pos _ (fun q : String × Bool => q.1 == k) (k, v) [] (by simp)]
    rfl

lemma dictGet_dictSet_other (d : Registry) (k k' : String) (v : Bool) (hk : k' ≠ k) :
    dictGet (dictSet d k v) k' = dictGet d k' := by
  unfold dictSet
  by_cases hc : dictContains d k = true
  · rw [if_pos hc]
    unfold dictGet
    rw [find?_map_keyfix_other d k k' v hk]
  · rw [if_neg hc]
    unfold dictGet
    rw [List.find?_append,
      @List.find?_cons_of_neg _ (fun q : String × Bool => q.1 == k') (k, v) []
        (by simp only [beq_iff_eq]; exact fun h => hk h.symm),
      List.find?_nil, Option.or_none]

lemma dictKeys_dictSet_of_contains (d : Registry) (k : String) (v : Bool)
    (hc : dictContains d k = true) : dictKeys (dictSet d k v) = dictKeys d := by
  simp only [dictSet, hc, if_true, dictKeys, List.map_map]
  apply List.map_congr_left
  intro p _
  by_cases hpk : p.1 = k <;> simp [hpk]

lemma dictKeys_dictSet_of_not_contains (d : Registry) (k : String) (v : Bool)
    (hc : dictContains d k = false) : dictKeys (dictSet d k v) = dictKeys d ++ [k] := by
  simp [dictSet, hc, dictKeys]

lemma mem_dictKeys_dictSet (d : Registry) (k s : String) (v : Bool) :
    s ∈ dictKeys (dictSet d k v) ↔ s ∈ dictKeys d ∨ s = k := by
  by_cases hc : dictContains d k = true
  · rw [dictKeys_dictSet_of_contains d k v hc]
    constructor
    · exact Or.inl
    · rintro (h | rfl)
      · exact h
      · exact (mem_dictKeys_iff d s).mpr hc
  · rw [dictKeys_dictSet_of_not_contains d k v (by simpa using hc)]
    simp

lemma dictSet_values_true (d : Registry) (k : String)
    (h : ∀ p ∈ d, p.2 = true) : ∀ p ∈ dictSet d k true, p.2 = true := by
  intro p hp
  by_cases hc : dictContains d k = true
  · simp only [dictSet, hc, if_true, List.mem_map] at hp
    obtain ⟨q, hq, hpq⟩ := hp
    by_cases hqk : q.1 = k
    · rw [← hpq]; simp [hqk]
    · rw [← hpq]; simp only [show (q.1 == k) = false by simpa using hqk, if_false]
      exact h q hq
  · unfold dictSet at hp
    rw [if_neg hc] at hp
    rcases List.mem_append.mp hp with hp1 | hp1
    · exact h p hp1
    · have hpk : p = (k, true) := by simpa using hp1
      rw [hpk]

lemma dictContains_cons (p : String × Bool) (t : Registry) (k : String) :
    dictContains (p :: t) k = ((p.1 == k) || dictContains t k) := rfl

lemma map_keyfix_of_not_contains (d : Registry) (k : String) (v : Bool)
    (hc : dictContains d k = false) :
    d.map (fun p => if p.1 == k then (p.1, v) else p) = d := by
  induction d with
  | nil => rfl
  | cons p t ih =>
      rw [dictContains_cons] at hc
      have h1 : (p.1 == k) = false := by
        cases hb : (p.1 == k)
        · rfl
        · rw [hb] at hc; simp at hc
      have h2 : dictContains t k = false := by
        rw [h1, Bool.false_or] at hc
        exact hc
      rw [List.map_cons, if_neg (by simp [h1]), ih h2]

lemma dictSet_cons_hit (p : String × Bool) (t : Registry) (k : String) (v : Bool)
    (hbk : (p.1 == k) = true) (htk : dictContains t k = false) :
    dictSet (p :: t) k v = (p.1, v) :: t := by
  unfold dictSet
  rw [if_pos (show dictContains (p :: t) k = true by
    rw [dictContains_cons, hbk, Bool.true_or])]
  rw [List.map_cons, if_pos hbk, map_keyfix_of_not_contains t k v htk]

lemma dictSet_cons_miss (p : String × Bool) (t : Registry) (k : String) (v : Bool)
    (hbk : (p.1 == k) = false) :
    dictSet (p :: t) k v = p :: dictSet t k v := by
  by_cases htk : dictContains t k = true
  · unfold dictSet
    rw [if_pos (show dictContains (p :: t) k = true by
        rw [dictContains_cons, hbk, Bool.false_or]; exact htk),
      if_pos htk, List.map_cons, if_neg (by simp [hbk])]
  · unfold dictSet
    rw [if_neg (show ¬(dictContains (p :: t) k = true) by
        rw [dictContains_cons, hbk, Bool.false_or]; exact htk),
      if_neg htk, List.cons_append]

lemma dictContains_dictSet_self (d : Registry) (k : String) (v : Bool) :
    dictContains (dictSet d k v) k = true := by
  have := dictGet_dictSet_self d k v
  exact dictContains_of_dictGet _ _ _ this

lemma dictSet_cancel (d : Registry) (k : String) (b : Bool)
    (hnd : (dictKeys d).Nodup) (hg : dictGet d k = some b) :
    dictSet (dictSet d k (!b)) k b = d := by
  induction d with
  | nil => exact absurd hg (by simp [dictGet])
  | cons p t ih =>
      have hnd' : (dictKeys t).Nodup := (List.nodup_cons.mp hnd).2
      have hpnot : p.1 ∉ dictKeys t := (List.nodup_cons.mp hnd).1
      by_cases hpk : (p.1 == k) = true
      · have hp1 : p.1 = k := by simpa using hpk
        have hval : p.2 = b := by
          unfold dictGet at hg
          rw [@List.find?_cons_of_pos _ (fun q : String × Bool => q.1 == k) p t hpk] at hg
          simpa using hg
        have htk : dictContains t k = false := by
          by_contra hh
          have h1 : dictContains t k = true := by simpa using hh
          exact hpnot (hp1 ▸ (mem_dictKeys_iff t k).mpr h1)
        rw [dictSet_cons_hit p t k (!b) hpk htk,
          dictSet_cons_hit (p.1, !b) t k b hpk htk, ← hval]
      · have hbk : (p.1 == k) = false := by simpa using hpk
        have hgt : dictGet t k = some b := by
          unfold dictGet at hg
          rw [@List.find?_cons_of_neg _ (fun q : String × Bool => q.1 == k) p t hpk] at hg
          exact hg
        rw [dictSet_cons_miss p t k (!b) hbk, dictSet_cons_miss p (dictSet t k (!b)) k b hbk,
          ih hnd' hgt]

/-! Helper lemmas about `DataSet` field access. -/

lemma labels_setLabels_same (ds : DataSet) (c : Categories) (r : Registry) :
    (ds.setLabels c r).labels c = r := by cases c <;> rfl

lemma labels_setLabels_other (ds : DataSet) (c c' : Categories) (r : Registry) (h : c' ≠ c) :
    (ds.setLabels c r).labels c' = ds.labels c' := by
  cases c <;> cases c' <;> first | rfl | exact absurd rfl h

lemma data_setLabels (ds : DataSet) (c : Categories) (r : Registry) :
    (ds.setLabels c r).data = ds.data := by cases c <;> rfl

lemma header_setLabels (ds : DataSet) (c : Categories) (r : Registry) :
    (ds.setLabels c r).header = ds.header := by cases c <;> rfl

lemma setLabels_labels (ds : DataSet) (c : Categories) :
    ds.setLabels c (ds.labels c) = ds := by cases c <;> rfl

lemma setLabels_setLabels (ds : DataSet) (c : Categories) (r r' : Registry) :
    (ds.setLabels c r).setLabels c r' = ds.setLabels c r' := by cases c <;> rfl

/-! Helper lemmas about `mapM` and `Forall₂`. -/

lemma mapM_ok_of_forall {ε α β : Type} (f : α → Except ε β) (g : α → β) (xs : List α)
    (h : ∀ x ∈ xs, f x = .ok (g x)) : xs.mapM f = .ok (xs.map g) := by
  induction xs with
  | nil => rfl
  | cons a t ih =>
      rw [List.mapM_cons, h a (List.mem_cons_self a t),
        ih (fun x hx => h x (List.mem_cons_of_mem a hx)), List.map_cons]
      rfl

lemma forall₂_map_self {α β : Type} (P : α → β → Prop) (f : α → β) (xs : List α)
    (h : ∀ x ∈ xs, P x (f x)) : List.Forall₂ P xs (xs.map f) := by
  induction xs with
  | nil => simp
  | cons a t ih =>
      rw [List.map_cons]
      exact List.Forall₂.cons (h a (List.mem_cons_self a t))
        (ih (fun x hx => h x (List.mem_cons_of_mem a hx)))

/-! Bridges between the Bool-valued filters of the code and the
propositional filters used in the theorem statements. -/

lemma filter_cross_eq (l : List Record) (d1 d2 : String) :
    l.filter (fun item => item.1 == d1 && item.2.1 == d2) =
      l.filter (fun r => decide (r.1 = d1 ∧ r.2.1 = d2)) := by
  apply List.filter_congr
  intro x _
  by_cases h1 : x.1 = d1 <;> by_cases h2 : x.2.1 = d2 <;> simp [h1, h2]

lemma filter_table_eq (l : List Record) (rc : Categories) (label : String)
    (active : List String) :
    l.filter (fun item => recField item rc == label &&
        active.contains (recField item (alternateOf rc))) =
      l.filter (fun r => decide (recField r rc = label ∧
        recField r (alternateOf rc) ∈ active)) := by
  apply List.filter_congr
  intro x _
  by_cases h1 : recField x rc = label <;>
    by_cases h2 : recField x (alternateOf rc) ∈ active <;>
      simp [h1, h2, List.contains, List.elem_iff]

/-! Helper lemmas about parsing. -/

lemma parseAll_eq_none_of_mem (rows : List (List String)) (r : List String)
    (hr : r ∈ rows) (hp : parseRow r = none) : parseAll rows = none := by
  induction rows with
  | nil => cases hr
  | cons a t ih =>
      rcases List.mem_cons.mp hr with rfl | hmem
      · rw [parseAll, hp]
      · rw [parseAll, ih hmem]
        cases parseRow a <;> rfl

lemma parseRow_eq_none_short (row : List String) (h : row.length < 6) :
    parseRow row = none := by
  have h5 : row.get? 5 = none := List.get?_eq_none.mpr (by omega)
  unfold parseRow
  rw [h5]
  cases h1 : row.get? 1 <;> cases h4 : row.get? 4 <;> rfl

lemma parseRow_eq_none_badfloat (row : List String) (c : String)
    (h5 : row.get? 5 = some c) (hf : pyFloatOfString c = none) : parseRow row = none := by
  unfold parseRow
  rw [h5]
  cases h1 : row.get? 1 <;> cases h4 : row.get? 4 <;> simp [hf]

/-! Helper lemmas about the label-registry rebuild of `load_file`. -/

lemma dictKeys_nodup_dictSet (d : Registry) (k : String) (v : Bool)
    (h : (dictKeys d).Nodup) : (dictKeys (dictSet d k v)).Nodup := by
  by_cases hc : dictContains d k = true
  · rw [dictKeys_dictSet_of_contains d k v hc]
    exact h
  · rw [dictKeys_dictSet_of_not_contains d k v (by simpa using hc)]
    refine List.Nodup.append h (List.nodup_singleton k) ?_
    intro a ha hb
    have hak : a = k := by simpa using hb
    subst hak
    exact hc ((mem_dictKeys_iff d a).mp ha)

lemma foldl_dictSet_keys_nodup (data : List Record) (category : Categories) (acc : Registry)
    (h : (dictKeys acc).Nodup) :
    (dictKeys (data.foldl (fun d i => dictSet d (recField i category) true) acc)).Nodup := by
  induction data generalizing acc with
  | nil => exact h
  | cons r t ih => exact ih _ (dictKeys_nodup_dictSet _ _ _ h)

lemma initialize_labels_keys_nodup (data : List Record) (category : Categories) :
    (dictKeys (initialize_labels_for data category)).Nodup :=
  foldl_dictSet_keys_nodup data category [] (by simp [dictKeys])

lemma mem_keys_foldl_dictSet (data : List Record) (category : Categories) (acc : Registry)
    (s : String) :
    s ∈ dictKeys (data.foldl (fun d i => dictSet d (recField i category) true) acc) ↔
      s ∈ dictKeys acc ∨ ∃ r ∈ data, recField r category = s := by
  induction data generalizing acc with
  | nil => simp
  | cons r t ih =>
      rw [List.foldl_cons, ih, mem_dictKeys_dictSet]
      constructor
      · rintro ((h | rfl) | ⟨x, hx, hxs⟩)
        · exact Or.inl h
        · exact Or.inr ⟨r, List.mem_cons_self r t, rfl⟩
        · exact Or.inr ⟨x, List.mem_cons_of_mem r hx, hxs⟩
      · rintro (h | ⟨x, hx, hxs⟩)
        · exact Or.inl (Or.inl h)
        · rcases List.mem_cons.mp hx with rfl | hx'
          · exact Or.inl (Or.inr hxs.symm)
          · exact Or.inr ⟨x, hx', hxs⟩

lemma mem_keys_initialize_labels (data : List Record) (category : Categories) (s : String) :
    s ∈ dictKeys (initialize_labels_for data category) ↔
      ∃ r ∈ data, recField r category = s := by
  unfold initialize_labels_for
  rw [mem_keys_foldl_dictSet]
  simp [dictKeys]

lemma values_true_foldl_dictSet (data : List Record) (category : Categories) (acc : Registry)
    (h : ∀ p ∈ acc, p.2 = true) :
    ∀ p ∈ data.foldl (fun d i => dictSet d (recField i category) true) acc, p.2 = true := by
  induction data generalizing acc with
  | nil => exact h
  | cons r t ih => exact ih _ (dictSet_values_true acc _ h)

lemma values_true_initialize_labels (data : List Record) (category : Categories) :
    ∀ p ∈ initialize_labels_for data category, p.2 = true :=
  values_true_foldl_dictSet data category [] (by intro p hp; cases hp)

lemma activeKeys_eq_dictKeys_of_all_true (d : Registry) (h : ∀ p ∈ d, p.2 = true) :
    activeKeys d = dictKeys d := by
  unfold activeKeys dictKeys
  rw [List.filter_eq_self.mpr h]

/-! Concrete evaluation of the worked example. -/

lemma pyFloat_five : pyFloatOfString "5.0" = some 5 := by
  have h : pyFloatOfString "5.0" =
      some ((1 : ℚ) * (((5 : ℕ) : ℚ) + ((0 : ℕ) : ℚ) / ((10 : ℚ) ^ (1 : ℕ)))) := rfl
  rw [h]
  norm_num

lemma pyFloat_seven : pyFloatOfString "7.0" = some 7 := by
  have h : pyFloatOfString "7.0" =
      some ((1 : ℚ) * (((7 : ℕ) : ℚ) + ((0 : ℕ) : ℚ) / ((10 : ℚ) ^ (1 : ℕ)))) := rfl
  rw [h]
  norm_num

lemma pyFloat_three : pyFloatOfString "3.0" = some 3 := by
  have h : pyFloatOfString "3.0" =
      some ((1 : ℚ) * (((3 : ℕ) : ℚ) + ((0 : ℕ) : ℚ) / ((10 : ℚ) ^ (1 : ℕ)))) := rfl
  rw [h]
  norm_num

lemma parseRow_ex1 : parseRow ["0", "10001", "x", "y", "Morning", "5.0"] =
    some ("10001", "Morning", 5) := by
  have h : parseRow ["0", "10001", "x", "y", "Morning", "5.0"] =
      (pyFloatOfString "5.0").map (fun q => ("10001", "Morning", q)) := rfl
  rw [h, pyFloat_five]
  rfl

lemma parseRow_ex2 : parseRow ["1", "10001", "x", "y", "Morning", "7.0"] =
    some ("10001", "Morning", 7) := by
  have h : parseRow ["1", "10001", "x", "y", "Morning", "7.0"] =
      (pyFloatOfString "7.0").map (fun q => ("10001", "Morning", q)) := rfl
  rw [h, pyFloat_seven]
  rfl

lemma parseRow_ex3 : parseRow ["2", "10002", "x", "y", "Evening", "3.0"] =
    some ("10002", "Evening", 3) := by
  have h : parseRow ["2", "10002", "x", "y", "Evening", "3.0"] =
      (pyFloatOfString "3.0").map (fun q => ("10002", "Evening", q)) := rfl
  rw [h, pyFloat_three]
  rfl

lemma parseAll_example :
    parseAll [["0", "10001", "x", "y", "Morning", "5.0"],
              ["1", "10001", "x", "y", "Morning", "7.0"],
              ["2", "10002", "x", "y", "Evening", "3.0"]] = some exampleRecords := by
  simp only [parseAll, parseRow_ex1, parseRow_ex2, parseRow_ex3]
  rfl

lemma load_file_example : load_file ds0 exampleRows = (exampleDS, .ok "3 lines loaded") := by
  have h : exampleRows = ["sensor", "zip", "a", "b", "time", "conc"] ::
      [["0", "10001", "x", "y", "Morning", "5.0"],
       ["1", "10001", "x", "y", "Morning", "7.0"],
       ["2", "10002", "x", "y", "Evening", "3.0"]] := rfl
  rw [h]
  simp only [load_file, parseAll_example]
  rfl

/-! Small reduction lemmas used below. -/

lemma pyFalsyData_some_of_ne (l : List Record) (hl : l ≠ []) :
    pyFalsyData (some l) = false := by
  cases l with
  | nil => exact absurd rfl hl
  | cons a t => rfl

lemma isEmpty_false {α : Type} (l : List α) (h : l ≠ []) : l.isEmpty = false := by
  cases l with
  | nil => exact absurd rfl h
  | cons a t => rfl

lemma except_bind_ok {ε α β : Type} (a : α) (f : α → Except ε β) :
    (Except.ok a >>= f : Except ε β) = f a := rfl

lemma get_active_labels_ok (ds : DataSet) (l : List Record) (hd : ds.data = some l)
    (hl : l ≠ []) (category : Categories) :
    get_active_labels ds category = .ok (activeKeys (ds.labels category)) := by
  unfold get_active_labels
  rw [hd, pyFalsyData_some_of_ne l hl, if_neg Bool.false_ne_true]

lemma get_labels_ok (ds : DataSet) (l : List Record) (hd : ds.data = some l)
    (hl : l ≠ []) (category : Categories) :
    get_labels ds category = .ok (dictKeys (ds.labels category)) := by
  unfold get_labels
  rw [hd, pyFalsyData_some_of_ne l hl, if_neg Bool.false_ne_true]

lemma cross_table_statistics_eq (ds : DataSet) (l : List Record) (hd : ds.data = some l)
    (hl : l ≠ []) (d1 d2 : String) :
    cross_table_statistics ds d1 d2 =
      (match (l.filter (fun r => decide (r.1 = d1 ∧ r.2.1 = d2))).map (fun r => r.2.2) with
      | [] => .error .noMatchingItems
      | c :: cs => .ok (pyMin c cs, (c :: cs).sum / ((c :: cs).length : ℚ), pyMax c cs)) := by
  unfold cross_table_statistics
  rw [hd, pyFalsyData_some_of_ne l hl, if_neg Bool.false_ne_true, Option.getD_some,
    filter_cross_eq]

lemma table_statistics_eq_code (ds : DataSet) (l : List Record) (hd : ds.data = some l)
    (hl : l ≠ []) (row_category : Categories) (label : String) :
    table_statistics ds row_category label =
      (match (l.filter (fun item => recField item row_category == label &&
          (activeKeys (ds.labels (alternateOf row_category))).contains
            (recField item (alternateOf row_category)))).map (fun item => item.2.2) with
      | [] => .error .noMatchingItems
      | c :: cs => .ok (pyMin c cs, (c :: cs).sum / ((c :: cs).length : ℚ), pyMax c cs)) := by
  unfold table_statistics
  rw [get_active_labels_ok ds l hd hl, hd, pyFalsyData_some_of_ne l hl]
  rfl

lemma table_statistics_eq (ds : DataSet) (l : List Record) (hd : ds.data = some l)
    (hl : l ≠ []) (row_category : Categories) (label : String) :
    table_statistics ds row_category label =
      (match (l.filter (fun r => decide (recField r row_category = label ∧
          recField r (alternateOf row_category) ∈
            activeKeys (ds.labels (alternateOf row_category))))).map (fun r => r.2.2) with
      | [] => .error .noMatchingItems
      | c :: cs => .ok (pyMin c cs, (c :: cs).sum / ((c :: cs).length : ℚ), pyMax c cs)) := by
  rw [table_statistics_eq_code ds l hd hl, filter_table_eq]

/-- C1: for every loaded dataset and every pair of label strings,
`cross_table_statistics(zip_label, time_label)` selects exactly the
records whose zip field equals `zip_label` and whose time field equals
`time_label` — independently of both label registries, hence of any
active flag — and when the selection is non-empty it returns the triple
(minimum, sum divided by count, maximum) of the selected
concentrations. -/
theorem cross_table_statistics_correct (ds : DataSet) (l : List Record)
    (hd : ds.data = some l) (hl : l ≠ []) (zip_label time_label : String) :
    (∀ Z T hdr, cross_table_statistics ⟨Z, T, some l, hdr⟩ zip_label time_label =
        cross_table_statistics ds zip_label time_label) ∧
    (∀ sel, sel = (l.filter (fun r => decide (r.1 = zip_label ∧ r.2.1 = time_label))).map
        (fun r => r.2.2) →
      (sel = [] → cross_table_statistics ds zip_label time_label = .error .noMatchingItems) ∧
      (sel ≠ [] → ∃ mn av mx,
        cross_table_statistics ds zip_label time_label = .ok (mn, av, mx) ∧
        mn ∈ sel ∧ mx ∈ sel ∧ (∀ x ∈ sel, mn ≤ x ∧ x ≤ mx) ∧
        av = sel.sum / (sel.length : ℚ))) := by
  constructor
  · intro Z T hdr
    rw [cross_table_statistics_eq ds l hd hl, cross_table_statistics_eq ⟨Z, T, some l, hdr⟩ l rfl hl]
  · intro sel hsel
    subst hsel
    have heq := cross_table_statistics_eq ds l hd hl zip_label time_label
    constructor
    · intro h0
      rw [heq]
      rw [h0]
    · intro hne
      cases h2 : (l.filter (fun r => decide (r.1 = zip_label ∧ r.2.1 = time_label))).map
          (fun r => r.2.2) with
      | nil => exact absurd h2 hne
      | cons c cs =>
          refine ⟨pyMin c cs, (c :: cs).sum / ((c :: cs).length : ℚ), pyMax c cs,
            ?_, ?_, ?_, ?_, ?_⟩
          · rw [heq, h2]
          · exact pyMin_mem c cs
          · exact pyMax_mem c cs
          · exact fun x hx => ⟨pyMin_le c cs x hx, le_pyMax c cs x hx⟩
          · rfl

/-- Witness for C1 at the worked example: the selection for
("10001", "Morning") is [5, 7] and the statistics are (5.0, 6.0, 7.0). -/
theorem cross_table_statistics_correct_witness :
    exampleDS.data = some exampleRecords ∧ exampleRecords ≠ [] ∧
    (∃ mn av mx, cross_table_statistics exampleDS "10001" "Morning" = .ok (mn, av, mx) ∧
      mn ∈ [(5 : ℚ), 7] ∧ mx ∈ [(5 : ℚ), 7] ∧ (∀ x ∈ [(5 : ℚ), 7], mn ≤ x ∧ x ≤ mx) ∧
      av = [(5 : ℚ), 7].sum / (([(5 : ℚ), 7].length : ℕ) : ℚ)) ∧
    cross_table_statistics exampleDS "10001" "Morning" = .ok (5, 6, 7) := by
  have hne : exampleRecords ≠ [] := by simp [exampleRecords]
  have hsel : (exampleRecords.filter
      (fun r => decide (r.1 = "10001" ∧ r.2.1 = "Morning"))).map (fun r => r.2.2) =
      [(5 : ℚ), 7] := rfl
  refine ⟨rfl, hne, ?_, ?_⟩
  · have h := ((cross_table_statistics_correct exampleDS exampleRecords rfl hne
      "10001" "Morning").2 _ rfl).2 (by rw [hsel]; simp)
    rw [hsel] at h
    exact h
  · have h1 : cross_table_statistics exampleDS "10001" "Morning" =
        .ok (pyMin 5 [7], [(5 : ℚ), 7].sum / (([(5 : ℚ), 7].length : ℕ) : ℚ),
          pyMax 5 [7]) := rfl
    rw [h1]
    norm_num [pyMin, pyMax, min_def, max_def, List.sum_cons, List.sum_nil]

/-- C2: for every loaded dataset, `table_statistics(row_category, label)`
computes min/avg/max over exactly the records whose `row_category` field
equals `label` and whose opposite-category field value is an active
label of the opposite registry, and fails with `NoMatchingItems` when
this double filter selects nothing. -/
theorem table_statistics_correct (ds : DataSet) (l : List Record)
    (hd : ds.data = some l) (hl : l ≠ []) (row_category : Categories) (label : String) :
    ∀ sel, sel = (l.filter (fun r => decide (recField r row_category = label ∧
        recField r (alternateOf row_category) ∈
          activeKeys (ds.labels (alternateOf row_category))))).map (fun r => r.2.2) →
      (sel = [] → table_statistics ds row_category label = .error .noMatchingItems) ∧
      (sel ≠ [] → ∃ mn av mx, table_statistics ds row_category label = .ok (mn, av, mx) ∧
        mn ∈ sel ∧ mx ∈ sel ∧ (∀ x ∈ sel, mn ≤ x ∧ x ≤ mx) ∧
        av = sel.sum / (sel.length : ℚ)) ∧
      (∀ q : ℚ, q ∈ sel ↔ ∃ r ∈ l, (recField r row_category = label ∧
        recField r (alternateOf row_category) ∈
          activeKeys (ds.labels (alternateOf row_category))) ∧ r.2.2 = q) := by
  intro sel hsel
  subst hsel
  have heq := table_statistics_eq ds l hd hl row_category label
  refine ⟨?_, ?_, ?_⟩
  · intro h0
    rw [heq]
    rw [h0]
  · intro hne
    cases h2 : (l.filter (fun r => decide (recField r row_category = label ∧
        recField r (alternateOf row_category) ∈
          activeKeys (ds.labels (alternateOf row_category))))).map (fun r => r.2.2) with
    | nil => exact absurd h2 hne
    | cons c cs =>
        refine ⟨pyMin c cs, (c :: cs).sum / ((c :: cs).length : ℚ), pyMax c cs,
          ?_, ?_, ?_, ?_, ?_⟩
        · rw [heq, h2]
        · exact pyMin_mem c cs
        · exact pyMax_mem c cs
        · exact fun x hx => ⟨pyMin_le c cs x hx, le_pyMax c cs x hx⟩
        · rfl
  · intro q
    simp [List.mem_map, List.mem_filter, and_assoc]

/-- Witness for C2: after toggling zip "10002" inactive on the worked
example, the double filter for (TIME_OF_DAY, "Evening") selects no
record — the only "Evening" record has zip "10002" — and the call fails
with NoMatchingItems. -/
theorem table_statistics_correct_witness :
    toggle_active_label exampleDS .ZIP_CODE "10002" = .ok exampleDSToggled ∧
    exampleDSToggled.data = some exampleRecords ∧ exampleRecords ≠ [] ∧
    (exampleRecords.filter (fun r => decide (recField r Categories.TIME_OF_DAY = "Evening" ∧
        recField r (alternateOf Categories.TIME_OF_DAY) ∈
          activeKeys (exampleDSToggled.labels (alternateOf Categories.TIME_OF_DAY))))).map
        (fun r => r.2.2) = [] ∧
    table_statistics exampleDSToggled .TIME_OF_DAY "Evening" = .error .noMatchingItems := by
  have hne : exampleRecords ≠ [] := by simp [exampleRecords]
  refine ⟨rfl, rfl, hne, rfl, ?_⟩
  exact ((table_statistics_correct exampleDSToggled exampleRecords rfl hne .TIME_OF_DAY
    "Evening") _ rfl).1 rfl

/-- C3: when some data row is malformed (fewer than 6 fields, the
`IndexError` case) or has a non-numeric concentration field (index 5,
the `ValueError` case), `load_file` fails with the parse error and the
returned state is exactly the original one: the record collection and
both label registries are unchanged, the registries are not rebuilt. -/
theorem load_file_parse_failure (ds : DataSet) (hdr : List String)
    (dataRows : List (List String)) (row : List String) (hrow : row ∈ dataRows)
    (hbad : row.length < 6 ∨ ∃ c, row.get? 5 = some c ∧ pyFloatOfString c = none) :
    load_file ds (hdr :: dataRows) = (ds, .error .parseFailure) := by
  have hnone : parseRow row = none := by
    rcases hbad with h | ⟨c, h5, hf⟩
    · exact parseRow_eq_none_short row h
    · exact parseRow_eq_none_badfloat row c h5 hf
  have hall : parseAll dataRows = none := parseAll_eq_none_of_mem dataRows row hrow hnone
  simp only [load_file, hall]

/-- Witness for C3: loading a file with a non-numeric concentration over
the already-loaded example dataset fails with the parse error and leaves
the dataset (records and both registries) unchanged. -/
theorem load_file_parse_failure_witness :
    (["0", "10001", "x", "y", "Morning", "bad"].length < 6 ∨
      ∃ c, ["0", "10001", "x", "y", "Morning", "bad"].get? 5 = some c ∧
        pyFloatOfString c = none) ∧
    load_file exampleDS [["hdr"], ["0", "10001", "x", "y", "Morning", "bad"]] =
      (exampleDS, .error .parseFailure) := by
  refine ⟨Or.inr ⟨"bad", rfl, rfl⟩, ?_⟩
  exact load_file_parse_failure exampleDS ["hdr"] _ _ (List.mem_cons_self _ _)
    (Or.inr ⟨"bad", rfl, rfl⟩)

/-- C4: after a successful load, for each category the registry key set
is exactly the set of distinct values of that category's field over the
loaded records, every key maps to `True`, and
`get_active_labels(category) == get_labels(category)`. -/
theorem load_file_rebuilds_labels (ds : DataSet) (hdr : List String)
    (dataRows : List (List String)) (newData : List Record)
    (hp : parseAll dataRows = some newData) (hne : newData ≠ []) :
    ∀ category : Categories,
      (∀ s : String, s ∈ dictKeys (((load_file ds (hdr :: dataRows)).1).labels category) ↔
        ∃ r ∈ newData, recField r category = s) ∧
      (∀ p ∈ ((load_file ds (hdr :: dataRows)).1).labels category, p.2 = true) ∧
      get_active_labels (load_file ds (hdr :: dataRows)).1 category =
        get_labels (load_file ds (hdr :: dataRows)).1 category := by
  have hres : load_file ds (hdr :: dataRows) =
      (⟨initialize_labels_for newData .ZIP_CODE, initialize_labels_for newData .TIME_OF_DAY,
        some newData, ds.header⟩,
       .ok (toString newData.length ++ " lines loaded")) := by
    simp only [load_file, hp, isEmpty_false newData hne, Bool.false_eq_true, if_false]
  intro category
  rw [hres]
  have hlab : ((⟨initialize_labels_for newData .ZIP_CODE,
      initialize_labels_for newData .TIME_OF_DAY, some newData, ds.header⟩ : DataSet),
      (.ok (toString newData.length ++ " lines loaded") : Except PyError String)).1.labels
        category = initialize_labels_for newData category := by
    cases category <;> rfl
  refine ⟨?_, ?_, ?_⟩
  · intro s
    rw [hlab]
    exact mem_keys_initialize_labels newData category s
  · rw [hlab]
    exact values_true_initialize_labels newData category
  · rw [get_active_labels_ok _ newData rfl hne category,
      get_labels_ok _ newData rfl hne category, hlab,
      activeKeys_eq_dictKeys_of_all_true _ (values_true_initialize_labels newData category)]

/-- Witness for C4 at the worked example. -/
theorem load_file_rebuilds_labels_witness :
    parseAll [["0", "10001", "x", "y", "Morning", "5.0"],
              ["1", "10001", "x", "y", "Morning", "7.0"],
              ["2", "10002", "x", "y", "Evening", "3.0"]] = some exampleRecords ∧
    exampleRecords ≠ [] ∧
    (∀ s : String, s ∈ dictKeys
        (((load_file ds0 exampleRows).1).labels Categories.ZIP_CODE) ↔
      ∃ r ∈ exampleRecords, recField r Categories.ZIP_CODE = s) ∧
    (∀ p ∈ ((load_file ds0 exampleRows).1).labels Categories.ZIP_CODE, p.2 = true) ∧
    get_active_labels (load_file ds0 exampleRows).1 Categories.ZIP_CODE =
      get_labels (load_file ds0 exampleRows).1 Categories.ZIP_CODE := by
  have hne : exampleRecords ≠ [] := by simp [exampleRecords]
  have h := load_file_rebuilds_labels ds0 ["sensor", "zip", "a", "b", "time", "conc"]
    [["0", "10001", "x", "y", "Morning", "5.0"],
     ["1", "10001", "x", "y", "Morning", "7.0"],
     ["2", "10002", "x", "y", "Evening", "3.0"]] exampleRecords parseAll_example hne
    Categories.ZIP_CODE
  exact ⟨parseAll_example, hne, h.1, h.2.1, h.2.2⟩

/-- C5: on a `DataSet` with no data loaded, every operation other than
`load` — `get_labels`, `get_active_labels`, `toggle_active_label`,
`cross_table_statistics`, `table_statistics`, `display_cross_table`,
`display_field_table` — fails with `EmptyDatasetError`. -/
theorem empty_dataset_errors (ds : DataSet) (h : ds.data = none) :
    ∀ (category row_category : Categories) (stat : Stats) (descriptor d1 d2 label : String),
      get_labels ds category = .error .emptyDatasetError ∧
      get_active_labels ds category = .error .emptyDatasetError ∧
      toggle_active_label ds category descriptor = .error .emptyDatasetError ∧
      cross_table_statistics ds d1 d2 = .error .emptyDatasetError ∧
      table_statistics ds row_category label = .error .emptyDatasetError ∧
      display_cross_table ds stat = .error .emptyDatasetError ∧
      display_field_table ds row_category = .error .emptyDatasetError := by
  intro category row_category stat descriptor d1 d2 label
  have hf : pyFalsyData ds.data = true := by rw [h]; rfl
  refine ⟨?_, ?_, ?_, ?_, ?_, ?_, ?_⟩ <;>
    simp [get_labels, get_active_labels, toggle_active_label, cross_table_statistics,
      table_statistics, display_cross_table, display_field_table, hf]

/-- Witness for C5 at the freshly constructed dataset. -/
theorem empty_dataset_errors_witness :
    ds0.data = none ∧
    get_labels ds0 .ZIP_CODE = .error .emptyDatasetError ∧
    get_active_labels ds0 .ZIP_CODE = .error .emptyDatasetError ∧
    toggle_active_label ds0 .ZIP_CODE "10001" = .error .emptyDatasetError ∧
    cross_table_statistics ds0 "10001" "Morning" = .error .emptyDatasetError ∧
    table_statistics ds0 .TIME_OF_DAY "Evening" = .error .emptyDatasetError ∧
    display_cross_table ds0 .AVG = .error .emptyDatasetError ∧
    display_field_table ds0 .TIME_OF_DAY = .error .emptyDatasetError := by
  have h := empty_dataset_errors ds0 rfl .ZIP_CODE .TIME_OF_DAY .AVG "10001" "10001"
    "Morning" "Evening"
  exact ⟨rfl, h.1, h.2.1, h.2.2.1, h.2.2.2.1, h.2.2.2.2.1, h.2.2.2.2.2.1, h.2.2.2.2.2.2⟩

lemma map_fst_map_pair {α β : Type} (xs : List α) (g : α → β) :
    (xs.map (fun j => (j, g j))).map Prod.fst = xs := by
  induction xs with
  | nil => rfl
  | cons a t ih => simp [ih]

/-- C6: `cross_table_statistics` raises `NoMatchingItems` exactly when
no record matches both labels, and `display_cross_table` renders the
"N/A" placeholder (modelled as `none`) in exactly those cells, every
other cell holding the selected statistic of its own (zip, time) pair. -/
theorem cross_table_no_match_display (ds : DataSet) (l : List Record)
    (hd : ds.data = some l) (hl : l ≠ []) (stat : Stats) :
    (∀ d1 d2, cross_table_statistics ds d1 d2 = .error .noMatchingItems ↔
      (l.filter (fun r => decide (r.1 = d1 ∧ r.2.1 = d2))).map (fun r => r.2.2) = []) ∧
    (∃ grid, display_cross_table ds stat =
        .ok (activeKeys (ds.labels .TIME_OF_DAY), grid) ∧
      grid.map Prod.fst = activeKeys (ds.labels .ZIP_CODE) ∧
      ∀ j cells, (j, cells) ∈ grid →
        List.Forall₂ (fun k cell =>
          (cell = none ↔
            (l.filter (fun r => decide (r.1 = j ∧ r.2.1 = k))).map (fun r => r.2.2) = []) ∧
          ∀ q : ℚ, cell = some q →
            ∃ t, cross_table_statistics ds j k = .ok t ∧ q = stat.select t)
          (activeKeys (ds.labels .TIME_OF_DAY)) cells) := by
  have hiff : ∀ d1 d2, cross_table_statistics ds d1 d2 = .error .noMatchingItems ↔
      (l.filter (fun r => decide (r.1 = d1 ∧ r.2.1 = d2))).map (fun r => r.2.2) = [] := by
    intro d1 d2
    rw [cross_table_statistics_eq ds l hd hl d1 d2]
    cases h2 : (l.filter (fun r => decide (r.1 = d1 ∧ r.2.1 = d2))).map (fun r => r.2.2) with
    | nil => simp
    | cons c cs => simp
  have hcases : ∀ d1 d2, cross_cell stat (cross_table_statistics ds d1 d2) =
      .ok (match cross_table_statistics ds d1 d2 with
        | .ok t => some (stat.select t)
        | .error e => none) := by
    intro d1 d2
    rw [cross_table_statistics_eq ds l hd hl d1 d2]
    cases h2 : (l.filter (fun r => decide (r.1 = d1 ∧ r.2.1 = d2))).map (fun r => r.2.2) with
    | nil => rfl
    | cons c cs => rfl
  have houter : (activeKeys (ds.labels .ZIP_CODE)).mapM (fun j =>
      (activeKeys (ds.labels .TIME_OF_DAY)).mapM
          (fun k => cross_cell stat (cross_table_statistics ds j k)) >>=
        (fun cells => pure (j, cells))) =
      .ok ((activeKeys (ds.labels .ZIP_CODE)).map (fun j => (j,
        (activeKeys (ds.labels .TIME_OF_DAY)).map (fun k =>
          match cross_table_statistics ds j k with
          | .ok t => some (stat.select t)
          | .error e => none)))) := by
    apply mapM_ok_of_forall
    intro j _
    rw [mapM_ok_of_forall (fun k => cross_cell stat (cross_table_statistics ds j k))
      (fun k => match cross_table_statistics ds j k with
        | .ok t => some (stat.select t)
        | .error e => none)
      (activeKeys (ds.labels .TIME_OF_DAY)) (fun k _ => hcases j k)]
    rfl
  have hdisp : display_cross_table ds stat = .ok (activeKeys (ds.labels .TIME_OF_DAY),
      (activeKeys (ds.labels .ZIP_CODE)).map (fun j => (j,
        (activeKeys (ds.labels .TIME_OF_DAY)).map (fun k =>
          match cross_table_statistics ds j k with
          | .ok t => some (stat.select t)
          | .error e => none)))) := by
    unfold display_cross_table
    rw [hd, pyFalsyData_some_of_ne l hl, if_neg Bool.false_ne_true,
      get_active_labels_ok ds l hd hl .TIME_OF_DAY, get_active_labels_ok ds l hd hl .ZIP_CODE]
    simp only [except_bind_ok]
    rw [houter]
    rfl
  refine ⟨hiff, ⟨_, hdisp, ?_, ?_⟩⟩
  · exact map_fst_map_pair _ _
  · intro j cells hmem
    rw [List.mem_map] at hmem
    obtain ⟨j', hj', heq2⟩ := hmem
    have hj : j' = j := congrArg Prod.fst heq2
    subst hj
    have hcells : cells = (activeKeys (ds.labels .TIME_OF_DAY)).map (fun k =>
        match cross_table_statistics ds j' k with
        | .ok t => some (stat.select t)
        | .error e => none) := (congrArg Prod.snd heq2).symm
    rw [hcells]
    apply forall₂_map_self
    intro k _
    constructor
    · rw [cross_table_statistics_eq ds l hd hl j' k]
      cases h2 : (l.filter (fun r => decide (r.1 = j' ∧ r.2.1 = k))).map (fun r => r.2.2) with
      | nil => simp
      | cons c cs => simp
    · intro q hq
      cases hc : cross_table_statistics ds j' k with
      | ok t =>
          rw [hc] at hq
          simp only [Option.some.injEq] at hq
          exact ⟨t, rfl, hq.symm⟩
      | error e =>
          rw [hc] at hq
          simp at hq

/-- C7 evidence (code_bug): on the worked example, a successful
`load_file` replaces the record collection, rebuilds both registries
with every discovered label active, and prints the
`"{count} lines loaded"` message.  Contrary to its own docstring
("return number of lines in data"), the code returns `None` rather than
the count; the success payload modelled here is the printed message. -/
theorem load_file_replaces_rebuilds_prints :
    load_file ds0 exampleRows = (exampleDS, .ok "3 lines loaded") ∧
    exampleDS.data = some exampleRecords ∧
    exampleDS.labelsZip = initialize_labels_for exampleRecords .ZIP_CODE ∧
    exampleDS.labelsTime = initialize_labels_for exampleRecords .TIME_OF_DAY ∧
    (∀ p ∈ exampleDS.labelsZip, p.2 = true) ∧
    (∀ p ∈ exampleDS.labelsTime, p.2 = true) ∧
    exampleRecords.length = 3 ∧
    "3 lines loaded" = toString exampleRecords.length ++ " lines loaded" := by
  refine ⟨load_file_example, rfl, rfl, rfl, by decide, by decide, rfl, rfl⟩

/-- Witness for C6 at the worked example: ("10002", "Morning") matches
nothing and raises NoMatchingItems, and the MIN cross table renders that
cell (and only that cell of its row) as the placeholder. -/
theorem cross_table_no_match_display_witness :
    exampleDS.data = some exampleRecords ∧ exampleRecords ≠ [] ∧
    (cross_table_statistics exampleDS "10002" "Morning" = .error .noMatchingItems ↔
      (exampleRecords.filter (fun r => decide (r.1 = "10002" ∧ r.2.1 = "Morning"))).map
        (fun r => r.2.2) = []) ∧
    cross_table_statistics exampleDS "10002" "Morning" = .error .noMatchingItems ∧
    display_cross_table exampleDS .MIN =
      .ok (["Morning", "Evening"],
        [("10001", [some 5, none]), ("10002", [none, some 3])]) := by
  have hne : exampleRecords ≠ [] := by simp [exampleRecords]
  have h := cross_table_no_match_display exampleDS exampleRecords rfl hne .MIN
  refine ⟨rfl, hne, h.1 "10002" "Morning", (h.1 "10002" "Morning").mpr rfl, ?_⟩
  have hg : display_cross_table exampleDS .MIN =
      .ok (["Morning", "Evening"],
        [("10001", [some (pyMin 5 [7]), none]), ("10002", [none, some (pyMin 3 [])])]) := rfl
  rw [hg]
  norm_num [pyMin, min_def]

lemma toggle_ok_of_get (ds : DataSet) (c : Categories) (d : String) (b : Bool)
    (hf : pyFalsyData ds.data = false) (hg : dictGet (ds.labels c) d = some b) :
    toggle_active_label ds c d = .ok (ds.setLabels c (dictSet (ds.labels c) d (!b))) := by
  unfold toggle_active_label
  rw [hf, if_neg Bool.false_ne_true, hg]

lemma toggle_keyError_of_get_none (ds : DataSet) (c : Categories) (d : String)
    (hf : pyFalsyData ds.data = false) (hg : dictGet (ds.labels c) d = none) :
    toggle_active_label ds c d = .error .keyError := by
  unfold toggle_active_label
  rw [hf, if_neg Bool.false_ne_true, hg]

/-- C8: on a loaded dataset with the registry's keys distinct (always
true for a registry built by `_initialize_labels`), toggling a label not
in the registry raises `KeyError`, a single toggle flips exactly that
label's flag (all other keys, the other registry, the data and the
header are unchanged), and toggling twice restores the original state. -/
theorem toggle_active_label_involution (ds : DataSet) (l : List Record)
    (hd : ds.data = some l) (hl : l ≠ []) (category : Categories) (descriptor : String)
    (hnd : (dictKeys (ds.labels category)).Nodup) :
    (dictGet (ds.labels category) descriptor = none →
      toggle_active_label ds category descriptor = .error .keyError) ∧
    (∀ b, dictGet (ds.labels category) descriptor = some b →
      ∃ ds1, toggle_active_label ds category descriptor = .ok ds1 ∧
        dictGet (ds1.labels category) descriptor = some (!b) ∧
        (∀ k, k ≠ descriptor →
          dictGet (ds1.labels category) k = dictGet (ds.labels category) k) ∧
        (∀ c, c ≠ category → ds1.labels c = ds.labels c) ∧
        ds1.data = ds.data ∧ ds1.header = ds.header ∧
        toggle_active_label ds1 category descriptor = .ok ds) := by
  have hf : pyFalsyData ds.data = false := by
    rw [hd]
    exact pyFalsyData_some_of_ne l hl
  constructor
  · intro hg
    exact toggle_keyError_of_get_none ds category descriptor hf hg
  · intro b hg
    refine ⟨ds.setLabels category (dictSet (ds.labels category) descriptor (!b)),
      toggle_ok_of_get ds category descriptor b hf hg, ?_, ?_, ?_, ?_, ?_, ?_⟩
    · rw [labels_setLabels_same]
      exact dictGet_dictSet_self _ _ _
    · intro k hk
      rw [labels_setLabels_same]
      exact dictGet_dictSet_other _ _ _ _ hk
    · intro c hc
      exact labels_setLabels_other ds category c _ hc
    · exact data_setLabels ds category _
    · exact header_setLabels ds category _
    · have h2 := toggle_ok_of_get
        (ds.setLabels category (dictSet (ds.labels category) descriptor (!b)))
        category descriptor (!b)
        (by rw [data_setLabels]; exact hf)
        (by rw [labels_setLabels_same]; exact dictGet_dictSet_self _ _ _)
      rw [h2, labels_setLabels_same, Bool.not_not, dictSet_cancel _ _ _ hnd hg,
        setLabels_setLabels, setLabels_labels]

/-- Witness for C8 at the worked example: toggling "10002" twice
restores the dataset; toggling an unregistered label raises KeyError. -/
theorem toggle_active_label_involution_witness :
    exampleDS.data = some exampleRecords ∧ exampleRecords ≠ [] ∧
    (dictKeys (exampleDS.labels .ZIP_CODE)).Nodup ∧
    dictGet (exampleDS.labels .ZIP_CODE) "10002" = some true ∧
    dictGet (exampleDS.labels .ZIP_CODE) "nowhere" = none ∧
    toggle_active_label exampleDS .ZIP_CODE "nowhere" = .error .keyError ∧
    (∃ ds1, toggle_active_label exampleDS .ZIP_CODE "10002" = .ok ds1 ∧
      dictGet (ds1.labels .ZIP_CODE) "10002" = some (!true) ∧
      (∀ k, k ≠ "10002" →
        dictGet (ds1.labels .ZIP_CODE) k = dictGet (exampleDS.labels .ZIP_CODE) k) ∧
      (∀ c, c ≠ Categories.ZIP_CODE → ds1.labels c = exampleDS.labels c) ∧
      ds1.data = exampleDS.data ∧ ds1.header = exampleDS.header ∧
      toggle_active_label ds1 .ZIP_CODE "10002" = .ok exampleDS) := by
  have hne : exampleRecords ≠ [] := by simp [exampleRecords]
  have hnd : (dictKeys (exampleDS.labels .ZIP_CODE)).Nodup := by decide
  have h := toggle_active_label_involution exampleDS exampleRecords rfl hne .ZIP_CODE
    "10002" hnd
  have hmiss := toggle_active_label_involution exampleDS exampleRecords rfl hne .ZIP_CODE
    "nowhere" hnd
  exact ⟨rfl, hne, hnd, rfl, rfl, hmiss.1 rfl, h.2 true rfl⟩

/-- C9 (amended): the header setter accepts every string of length at
most 30 and stores it unchanged, rejects longer strings with the
validation error, and rejects a non-string value with the type error. -/
theorem set_header_spec (ds : DataSet) (s : String) :
    (s.length ≤ 30 → set_header ds (.str s) = .ok { ds with header := s }) ∧
    (30 < s.length → set_header ds (.str s) = .error .valueError) ∧
    set_header ds .nonString = .error .typeError := by
  refine ⟨?_, ?_, rfl⟩
  · intro h
    show (if s.length > 30 then (.error .valueError : Except PyError DataSet)
      else .ok { ds with header := s }) = .ok { ds with header := s }
    rw [if_neg (by omega)]
  · intro h
    show (if s.length > 30 then (.error .valueError : Except PyError DataSet)
      else .ok { ds with header := s }) = .error .valueError
    rw [if_pos (by omega)]

/-- Counterexample for C9 as stated: the header "Air Quality Report" has
18 characters, not 19 (it is still accepted, being at most 30). -/
theorem set_header_example_length :
    "Air Quality Report".length = 18 ∧
    ("Air Quality Report".length = 19 → False) ∧
    set_header ds0 (.str "Air Quality Report") =
      .ok { ds0 with header := "Air Quality Report" } := by
  refine ⟨rfl, by decide, rfl⟩

/-- Witness for C9: the 18-character header is accepted, a 31-character
header is rejected, and a non-string is a type error. -/
theorem set_header_spec_witness :
    ("Air Quality Report".length ≤ 30 ∧
      set_header ds0 (.str "Air Quality Report") =
        .ok { ds0 with header := "Air Quality Report" }) ∧
    (30 < "AAAAAAAAAAAAAAAAAAAAAAAAAAAAAAA".length ∧
      set_header ds0 (.str "AAAAAAAAAAAAAAAAAAAAAAAAAAAAAAA") = .error .valueError) ∧
    set_header ds0 .nonString = .error .typeError :=
  ⟨⟨by decide, (set_header_spec ds0 "Air Quality Report").1 (by decide)⟩,
   ⟨by decide, (set_header_spec ds0 "AAAAAAAAAAAAAAAAAAAAAAAAAAAAAAA").2.1 (by decide)⟩,
   (set_header_spec ds0 "x").2.2⟩

/-- C10: loading a source with only a header row raises
`EmptyDatasetError` after `self._data` has already been replaced by the
empty list: both registries keep the keys and flags of the prior load,
and every subsequent query raises `EmptyDatasetError` again. -/
theorem load_file_header_only (ds : DataSet) (hdr : List String) :
    load_file ds [hdr] = ({ ds with data := some [] }, .error .emptyDatasetError) ∧
    ({ ds with data := some ([] : List Record) } : DataSet).labelsZip = ds.labelsZip ∧
    ({ ds with data := some ([] : List Record) } : DataSet).labelsTime = ds.labelsTime ∧
    ({ ds with data := some ([] : List Record) } : DataSet).header = ds.header ∧
    (∀ (category row_category : Categories) (stat : Stats) (descriptor d1 d2 label : String),
      get_labels { ds with data := some [] } category = .error .emptyDatasetError ∧
      get_active_labels { ds with data := some [] } category = .error .emptyDatasetError ∧
      toggle_active_label { ds with data := some [] } category descriptor =
        .error .emptyDatasetError ∧
      cross_table_statistics { ds with data := some [] } d1 d2 = .error .emptyDatasetError ∧
      table_statistics { ds with data := some [] } row_category label =
        .error .emptyDatasetError ∧
      display_cross_table { ds with data := some [] } stat = .error .emptyDatasetError ∧
      display_field_table { ds with data := some [] } row_category =
        .error .emptyDatasetError) := by
  refine ⟨rfl, rfl, rfl, rfl, ?_⟩
  intro category row_category stat descriptor d1 d2 label
  have hf : pyFalsyData ({ ds with data := some [] } : DataSet).data = true := rfl
  refine ⟨?_, ?_, ?_, ?_, ?_, ?_, ?_⟩ <;>
    simp [get_labels, get_active_labels, toggle_active_label, cross_table_statistics,
      table_statistics, display_cross_table, display_field_table, hf]


end AirData
